import Mathlib

/-!
Verification of the questionnaire-scoring and assessment-link lifecycle core
of the repository (source: src/main2.py). The Python functions are embedded
shallowly: the MongoDB collection backing links and assessments is modelled
as a `List` of documents in insertion order (`insert_one` appends,
`find_one` returns the first document matching the filter, `update_one`
updates the first matching document), timestamps are natural numbers
counted in seconds (`timedelta(days=d)` becomes `d * 86400`), and the
`try/except` wrappers are modelled by an explicit `exc : Bool` parameter
that is `true` exactly when the persistence collaborator raises.
-/

namespace Roopak

/-! ## Scoring engine (src/main2.py, calculate_phq9_score / calculate_gad7_score) -/

/-- Embedding of `calculate_phq9_score` (src/main2.py lines 501-519):
`score = sum(answers)`, then an if/elif chain with inclusive upper bounds
4, 9, 14, 19 selecting severity and action. -/
def calculate_phq9_score (answers : List Int) : Int × String × String :=
  let score := answers.sum
  if score ≤ 4 then
    (score, "None-minimal", "None")
  else if score ≤ 9 then
    (score, "Mild", "Watchful waiting; repeat PHQ-9 at follow-up")
  else if score ≤ 14 then
    (score, "Moderate", "Treatment plan, considering counseling, follow-up and/or pharmacotherapy")
  else if score ≤ 19 then
    (score, "Moderately Severe", "Active treatment with pharmacotherapy and/or psychotherapy")
  else
    (score, "Severe", "Immediate initiation of pharmacotherapy and expedited referral to mental health specialist")

/-- Embedding of `calculate_gad7_score` (src/main2.py lines 521-532):
`score = sum(answers)`, inclusive upper bounds 4, 9, 14 selecting severity. -/
def calculate_gad7_score (answers : List Int) : Int × String :=
  let score := answers.sum
  if score ≤ 4 then
    (score, "Minimal anxiety")
  else if score ≤ 9 then
    (score, "Mild anxiety")
  else if score ≤ 14 then
    (score, "Moderate anxiety")
  else
    (score, "Severe anxiety")

/-- Sum of a list of integers all bounded by `b` is at most `length * b`. -/
theorem list_sum_le_length_mul (l : List Int) (b : Int) (h : ∀ x ∈ l, x ≤ b) :
    l.sum ≤ l.length * b := by
  induction l with
  | nil => simp
  | cons a t ih =>
    have ha : a ≤ b := h a (List.mem_cons_self a t)
    have ht : t.sum ≤ t.length * b := ih (fun x hx => h x (List.mem_cons_of_mem a hx))
    simp only [List.sum_cons, List.length_cons]
    push_cast
    nlinarith

/-- Sum of a list of nonnegative integers is nonnegative. -/
theorem list_sum_nonneg (l : List Int) (h : ∀ x ∈ l, 0 ≤ x) : 0 ≤ l.sum := by
  induction l with
  | nil => simp
  | cons a t ih =>
    have ha : 0 ≤ a := h a (List.mem_cons_self a t)
    have ht : 0 ≤ t.sum := ih (fun x hx => h x (List.mem_cons_of_mem a hx))
    simp only [List.sum_cons]
    omega

/-- C1: for every sequence of exactly 9 integer answers each in [0,3],
`calculate_phq9_score` returns the arithmetic sum (which lies in [0,27]) as
the score, and severity/action are determined by the inclusive upper bounds
4, 9, 14, 19 applied in order, so the boundaries 4/5, 9/10, 14/15, 19/20
fall exactly as the table states. -/
theorem phq9_scoring_spec (answers : List Int)
    (hlen : answers.length = 9) (hrange : ∀ a ∈ answers, 0 ≤ a ∧ a ≤ 3) :
    (calculate_phq9_score answers).1 = answers.sum ∧
    0 ≤ answers.sum ∧ answers.sum ≤ 27 ∧
    (answers.sum ≤ 4 →
      calculate_phq9_score answers = (answers.sum, "None-minimal", "None")) ∧
    (5 ≤ answers.sum → answers.sum ≤ 9 →
      calculate_phq9_score answers =
        (answers.sum, "Mild", "Watchful waiting; repeat PHQ-9 at follow-up")) ∧
    (10 ≤ answers.sum → answers.sum ≤ 14 →
      calculate_phq9_score answers =
        (answers.sum, "Moderate", "Treatment plan, considering counseling, follow-up and/or pharmacotherapy")) ∧
    (15 ≤ answers.sum → answers.sum ≤ 19 →
      calculate_phq9_score answers =
        (answers.sum, "Moderately Severe", "Active treatment with pharmacotherapy and/or psychotherapy")) ∧
    (20 ≤ answers.sum →
      calculate_phq9_score answers =
        (answers.sum, "Severe", "Immediate initiation of pharmacotherapy and expedited referral to mental health specialist")) := by
  have hub : answers.sum ≤ 27 := by
    have := list_sum_le_length_mul answers 3 (fun x hx => (hrange x hx).2)
    rw [hlen] at this
    omega
  have hlb : 0 ≤ answers.sum := list_sum_nonneg answers (fun x hx => (hrange x hx).1)
  refine ⟨?_, hlb, hub, ?_, ?_, ?_, ?_, ?_⟩ <;>
    simp only [calculate_phq9_score] <;>
    intros <;> split_ifs <;> first | rfl | omega

/-- C4: for every sequence of exactly 7 integer answers each in [0,3],
`calculate_gad7_score` returns the sum (in [0,21]) as the score and the
severity given by the inclusive upper bounds 4, 9, 14, so the boundaries
4/5, 9/10, 14/15 fall exactly as the table states. -/
theorem gad7_scoring_spec (answers : List Int)
    (hlen : answers.length = 7) (hrange : ∀ a ∈ answers, 0 ≤ a ∧ a ≤ 3) :
    (calculate_gad7_score answers).1 = answers.sum ∧
    0 ≤ answers.sum ∧ answers.sum ≤ 21 ∧
    (answers.sum ≤ 4 →
      calculate_gad7_score answers = (answers.sum, "Minimal anxiety")) ∧
    (5 ≤ answers.sum → answers.sum ≤ 9 →
      calculate_gad7_score answers = (answers.sum, "Mild anxiety")) ∧
    (10 ≤ answers.sum → answers.sum ≤ 14 →
      calculate_gad7_score answers = (answers.sum, "Moderate anxiety")) ∧
    (15 ≤ answers.sum →
      calculate_gad7_score answers = (answers.sum, "Severe anxiety")) := by
  have hub : answers.sum ≤ 21 := by
    have := list_sum_le_length_mul answers 3 (fun x hx => (hrange x hx).2)
    rw [hlen] at this
    omega
  have hlb : 0 ≤ answers.sum := list_sum_nonneg answers (fun x hx => (hrange x hx).1)
  refine ⟨?_, hlb, hub, ?_, ?_, ?_, ?_⟩ <;>
    simp only [calculate_gad7_score] <;>
    intros <;> split_ifs <;> first | rfl | omega

/-- C1 witness: the maximal answer sequence scores 27, "Severe". -/
theorem phq9_scoring_spec_witness :
    calculate_phq9_score [3, 3, 3, 3, 3, 3, 3, 3, 3] =
      (27, "Severe", "Immediate initiation of pharmacotherapy and expedited referral to mental health specialist") := by
  have h := phq9_scoring_spec [3, 3, 3, 3, 3, 3, 3, 3, 3] (by decide) (by decide)
  have h20 := h.2.2.2.2.2.2.2 (by decide)
  rw [show ([3, 3, 3, 3, 3, 3, 3, 3, 3] : List Int).sum = 27 by decide] at h20
  exact h20

/-- C4 witness: the all-zero answer sequence scores 0, "Minimal anxiety". -/
theorem gad7_scoring_spec_witness :
    calculate_gad7_score [0, 0, 0, 0, 0, 0, 0] = (0, "Minimal anxiety") := by
  have h := gad7_scoring_spec [0, 0, 0, 0, 0, 0, 0] (by decide) (by decide)
  have h0 := h.2.2.2.1 (by decide)
  rw [show ([0, 0, 0, 0, 0, 0, 0] : List Int).sum = 0 by decide] at h0
  exact h0

/-- C9: the scoring functions are total over every list of integers and do
no length or range validation: the score is always the raw sum, the empty
list yields 0 with the lowest bucket, and out-of-contract lists (wrong
length, values outside [0,3]) are scored by the bucket the raw sum falls
into. -/
theorem scoring_no_validation :
    (∀ answers : List Int, (calculate_phq9_score answers).1 = answers.sum) ∧
    (∀ answers : List Int, (calculate_gad7_score answers).1 = answers.sum) ∧
    calculate_phq9_score [] = (0, "None-minimal", "None") ∧
    calculate_gad7_score [] = (0, "Minimal anxiety") ∧
    calculate_phq9_score [7, -2] =
      (5, "Mild", "Watchful waiting; repeat PHQ-9 at follow-up") ∧
    calculate_gad7_score [100, 0, 0, 0, 0, 0, 0] = (100, "Severe anxiety") := by
  refine ⟨?_, ?_, by decide, by decide, by decide, by decide⟩ <;>
    intro answers <;>
    simp only [calculate_phq9_score, calculate_gad7_score] <;>
    split_ifs <;> rfl

/-! ## Assessment link manager (src/main2.py, class AssessmentLink)

A link document as stored in the `assessment_links` collection. The
collection is modelled as a `List Link` in insertion order. -/

structure Link where
  link_id : String
  doctor_id : String
  created_at : Nat
  expires_at : Nat
  used : Bool
  patient_email : Option String
  patient_name : Option String
deriving Repr, DecidableEq

/-- The MongoDB filter used by `validate_link`:
`{"link_id": lid, "expires_at": {"$gt": now}, "used": False}`. -/
def linkValidFilter (now : Nat) (lid : String) (l : Link) : Bool :=
  l.link_id == lid && decide (now < l.expires_at) && l.used == false

/-- Embedding of `AssessmentLink.create_link` (src/main2.py lines 402-422).
`link_id` is `str(uuid.uuid4())`, passed in as the fresh value `freshId`;
`created_at = datetime.now(timezone.utc)` is the parameter `now`;
`expires_at = created_at + timedelta(days=expiry_days)`. On success the
document is inserted and the link id returned; if `insert_one` raises
(`exc = true`) the exception is caught, an error is shown, and `None` is
returned with the store unchanged. -/
def create_link (exc : Bool) (store : List Link) (freshId : String) (now : Nat)
    (doctor_id : String) (expiry_days : Nat) (patient_email patient_name : Option String) :
    List Link × Option String :=
  let link : Link :=
    { link_id := freshId, doctor_id := doctor_id, created_at := now,
      expires_at := now + expiry_days * 86400, used := false,
      patient_email := patient_email, patient_name := patient_name }
  if exc then (store, none) else (store ++ [link], some freshId)

/-- Embedding of `AssessmentLink.validate_link` (src/main2.py lines
424-435): `find_one` with the filter `linkValidFilter`, i.e. the first
stored document with that `link_id`, unexpired (`expires_at > now`,
strict) and unused. If the lookup raises (`exc = true`) the exception is
caught and `None` is returned — the same value as a failed lookup. -/
def validate_link (exc : Bool) (store : List Link) (now : Nat) (lid : String) :
    Option Link :=
  if exc then none else store.find? (linkValidFilter now lid)

/-- Helper for `update_one({"link_id": lid}, {"$set": {"used": True}})`:
set `used := true` on the first document matching `link_id`, leaving the
rest of the collection unchanged. -/
def set_used_first : List Link → String → List Link
  | [], _ => []
  | l :: ls, lid =>
    if l.link_id == lid then { l with used := true } :: ls
    else l :: set_used_first ls lid

/-- Embedding of `AssessmentLink.mark_link_used` (src/main2.py lines
437-446): an unconditional `update_one` on the `link_id` filter, returning
`True` regardless of how many documents matched; if the update raises
(`exc = true`) the exception is caught and `False` is returned. -/
def mark_link_used (exc : Bool) (store : List Link) (lid : String) :
    List Link × Bool :=
  if exc then (store, false) else (set_used_first store lid, true)

/-- C2: `validate_link` (with the store reachable) returns some stored
link exactly when a link with the requested id exists that is unused and
strictly unexpired; any link it returns is such a stored link; and in
every other case — unknown id, expired, or already used — it returns the
single not-found result `none`, so the caller cannot tell the three cases
apart. -/
theorem validate_link_spec (store : List Link) (now : Nat) (lid : String) :
    (∀ l, validate_link false store now lid = some l →
      l ∈ store ∧ l.link_id = lid ∧ l.used = false ∧ now < l.expires_at) ∧
    (validate_link false store now lid = none ↔
      ∀ l ∈ store, ¬(l.link_id = lid ∧ l.used = false ∧ now < l.expires_at)) := by
  constructor
  · intro l hl
    simp only [validate_link, if_neg Bool.false_ne_true] at hl
    have hmem := List.mem_of_find?_eq_some hl
    have hp := List.find?_some hl
    simp only [linkValidFilter, Bool.and_eq_true, beq_iff_eq, decide_eq_true_eq] at hp
    exact ⟨hmem, hp.1.1, hp.2, hp.1.2⟩
  · simp only [validate_link, if_neg Bool.false_ne_true, List.find?_eq_none,
      linkValidFilter, Bool.and_eq_true, beq_iff_eq, decide_eq_true_eq]
    constructor
    · intro h l hl hcontra
      exact h l hl ⟨⟨hcontra.1, hcontra.2.2⟩, hcontra.2.1⟩
    · intro h l hl hcontra
      exact h l hl ⟨hcontra.1.1, hcontra.2, hcontra.1.2⟩

/-- C2 witness: a link whose expiry instant has been reached (`now` equal
to `expires_at`, so not strictly earlier) yields the not-found result. -/
theorem validate_link_spec_witness :
    validate_link false
      [{ link_id := "L1", doctor_id := "D1", created_at := 0,
         expires_at := 10, used := false,
         patient_email := none, patient_name := none }] 10 "L1" = none :=
  ((validate_link_spec
      [{ link_id := "L1", doctor_id := "D1", created_at := 0,
         expires_at := 10, used := false,
         patient_email := none, patient_name := none }] 10 "L1").2).mpr
    (by decide)

/-- After `set_used_first`, if the id occurred at most once in the store,
every stored link with that id is marked used. -/
theorem set_used_first_all_used (store : List Link) (lid : String)
    (huniq : (store.filter (fun l => l.link_id == lid)).length ≤ 1) :
    ∀ l ∈ set_used_first store lid, l.link_id = lid → l.used = true := by
  induction store with
  | nil => intro l hl; simp [set_used_first] at hl
  | cons a t ih =>
    intro l hl hlid
    by_cases ha : a.link_id == lid
    · simp only [set_used_first, if_pos ha] at hl
      rcases List.mem_cons.mp hl with h | h
      · subst h; rfl
      · exfalso
        simp only [List.filter_cons, if_pos ha, List.length_cons] at huniq
        have hnil : t.filter (fun l => l.link_id == lid) = [] :=
          List.length_eq_zero.mp (by omega)
        have : l ∈ t.filter (fun l => l.link_id == lid) :=
          List.mem_filter.mpr ⟨h, by simp [hlid]⟩
        rw [hnil] at this
        exact absurd this (List.not_mem_nil l)
    · simp only [set_used_first, if_neg ha] at hl
      rcases List.mem_cons.mp hl with h | h
      · subst h; exact absurd (by simp [hlid]) ha
      · have huniq' : (t.filter (fun l => l.link_id == lid)).length ≤ 1 := by
          simpa [List.filter_cons, ha] using huniq
        exact ih huniq' l h hlid

/-- `set_used_first` changes no field other than `used`: membership in the
result comes from a stored link with the same id. -/
theorem set_used_first_mem (store : List Link) (lid : String) :
    ∀ l ∈ set_used_first store lid,
      l ∈ store ∨ ∃ l₀ ∈ store, l₀.link_id = lid ∧ l = { l₀ with used := true } := by
  induction store with
  | nil => intro l hl; simp [set_used_first] at hl
  | cons a t ih =>
    intro l hl
    by_cases ha : a.link_id == lid
    · simp only [set_used_first, if_pos ha] at hl
      rcases List.mem_cons.mp hl with h | h
      · exact Or.inr ⟨a, List.mem_cons_self a t, by simpa using ha, h⟩
      · exact Or.inl (List.mem_cons_of_mem a h)
    · simp only [set_used_first, if_neg ha] at hl
      rcases List.mem_cons.mp hl with h | h
      · exact Or.inl (h ▸ List.mem_cons_self a t)
      · rcases ih l h with h' | ⟨l₀, hl₀, hid, heq⟩
        · exact Or.inl (List.mem_cons_of_mem a h')
        · exact Or.inr ⟨l₀, List.mem_cons_of_mem a hl₀, hid, heq⟩

/-- C3: no resurrection. Assuming the link id occurs at most once in the
store (link ids are fresh UUIDs): once `mark_link_used` has succeeded on a
link id, `validate_link` on that id returns not-found at every later time;
and once every stored link with that id has expired (`expires_at ≤ t`),
`validate_link` returns not-found at `t` and at every later time `t'`. -/
theorem link_no_resurrection (store : List Link) (lid : String)
    (huniq : (store.filter (fun l => l.link_id == lid)).length ≤ 1) :
    ((mark_link_used false store lid).2 = true ∧
      ∀ t, validate_link false (mark_link_used false store lid).1 t lid = none) ∧
    (∀ t t', t ≤ t' → (∀ l ∈ store, l.link_id = lid → l.expires_at ≤ t) →
      validate_link false store t' lid = none) := by
  constructor
  · refine ⟨rfl, fun t => ?_⟩
    have hspec := (validate_link_spec (mark_link_used false store lid).1 t lid).2
    rw [hspec]
    intro l hl hcontra
    have hused := set_used_first_all_used store lid huniq l (by simpa [mark_link_used] using hl) hcontra.1
    rw [hcontra.2.1] at hused
    exact Bool.false_ne_true hused
  · intro t t' htt' hexp
    rw [(validate_link_spec store t' lid).2]
    intro l hl hcontra
    have := hexp l hl hcontra.1
    omega

/-- C3 witness: a concrete unused, unexpired link is marked used, and
validation at a later time returns not-found. -/
theorem link_no_resurrection_witness :
    (mark_link_used false
        [{ link_id := "L1", doctor_id := "D1", created_at := 0,
           expires_at := 604800, used := false,
           patient_email := none, patient_name := none }] "L1").2 = true ∧
    validate_link false
      (mark_link_used false
        [{ link_id := "L1", doctor_id := "D1", created_at := 0,
           expires_at := 604800, used := false,
           patient_email := none, patient_name := none }] "L1").1 5 "L1" = none := by
  have h := (link_no_resurrection
    [{ link_id := "L1", doctor_id := "D1", created_at := 0,
       expires_at := 604800, used := false,
       patient_email := none, patient_name := none }] "L1" (by decide)).1
  exact ⟨h.1, h.2 5⟩

/-- `find?` over an appended list when the first part has no match. -/
theorem find?_append_of_none {α : Type} (p : α → Bool) (l₁ l₂ : List α)
    (h : l₁.find? p = none) : (l₁ ++ l₂).find? p = l₂.find? p := by
  induction l₁ with
  | nil => rfl
  | cons a t ih =>
    have ha : ¬p a = true := List.find?_eq_none.mp h a (List.mem_cons_self a t)
    have ht : t.find? p = none :=
      List.find?_eq_none.mpr (fun x hx => List.find?_eq_none.mp h x (List.mem_cons_of_mem a hx))
    rw [List.cons_append, List.find?_cons_of_neg _ ha]
    exact ih ht

/-- C5: `create_link` with a fresh id and `expiry_days ≥ 1`, followed
immediately (same clock reading, no intervening `mark_link_used`) by
`validate_link` on the returned id, returns exactly the created link:
`used = false`, the supplied patient email and name, the supplied doctor,
`expires_at = created_at + expiry_days` in seconds. -/
theorem create_then_validate (store : List Link) (freshId doctor : String)
    (now expiry_days : Nat) (pe pn : Option String)
    (hfresh : ∀ l ∈ store, l.link_id ≠ freshId) (hexp : 1 ≤ expiry_days) :
    (create_link false store freshId now doctor expiry_days pe pn).2 = some freshId ∧
    validate_link false (create_link false store freshId now doctor expiry_days pe pn).1
        now freshId =
      some { link_id := freshId, doctor_id := doctor, created_at := now,
             expires_at := now + expiry_days * 86400, used := false,
             patient_email := pe, patient_name := pn } := by
  refine ⟨rfl, ?_⟩
  have hnone : store.find? (linkValidFilter now freshId) = none :=
    List.find?_eq_none.mpr (fun l hl => by
      simp only [linkValidFilter, Bool.and_eq_true, beq_iff_eq, decide_eq_true_eq]
      intro hcontra
      exact hfresh l hl hcontra.1.1)
  simp only [create_link, validate_link, if_neg Bool.false_ne_true]
  rw [find?_append_of_none _ _ _ hnone]
  simp only [List.find?_cons, linkValidFilter]
  have hlt : now < now + expiry_days * 86400 := by omega
  simp [hlt]

/-- C5 witness: concrete creation with `expiry_days = 7` and a patient
email, validated immediately. -/
theorem create_then_validate_witness :
    (create_link false [] "token-1" 1000 "doc-9" 7 (some "a@b.com") none).2 =
      some "token-1" ∧
    validate_link false
        (create_link false [] "token-1" 1000 "doc-9" 7 (some "a@b.com") none).1
        1000 "token-1" =
      some { link_id := "token-1", doctor_id := "doc-9", created_at := 1000,
             expires_at := 1000 + 7 * 86400, used := false,
             patient_email := some "a@b.com", patient_name := none } :=
  create_then_validate [] "token-1" "doc-9" 1000 7 (some "a@b.com") none
    (by intro l hl; exact absurd hl (List.not_mem_nil l)) (by decide)

/-- C7 counterexample: a persistence failure during `validate_link`
produces exactly the not-found value `none`, the same result as looking up
an unknown id with the store healthy — no typed error distinguishes the
two — even though the store holds a link that is valid at that instant;
and a failing `create_link` likewise returns `none` instead of an error
value. -/
theorem persistence_error_counterexample :
    validate_link true
        [{ link_id := "L1", doctor_id := "D1", created_at := 0,
           expires_at := 604800, used := false,
           patient_email := none, patient_name := none }] 5 "L1" =
      validate_link false
        [{ link_id := "L1", doctor_id := "D1", created_at := 0,
           expires_at := 604800, used := false,
           patient_email := none, patient_name := none }] 5 "no-such-id" ∧
    validate_link true
        [{ link_id := "L1", doctor_id := "D1", created_at := 0,
           expires_at := 604800, used := false,
           patient_email := none, patient_name := none }] 5 "L1" = none ∧
    validate_link false
        [{ link_id := "L1", doctor_id := "D1", created_at := 0,
           expires_at := 604800, used := false,
           patient_email := none, patient_name := none }] 5 "L1" =
      some { link_id := "L1", doctor_id := "D1", created_at := 0,
             expires_at := 604800, used := false,
             patient_email := none, patient_name := none } := by
  refine ⟨?_, rfl, ?_⟩ <;> decide

/-- C7 amended: when the persistence collaborator raises during
`create_link` or `validate_link`, the exception is caught inside the
method (a UI error message is shown) and `None` is returned: `create_link`
returns no id and leaves no partial state, and `validate_link` returns the
very same `none` value it returns for an unknown, expired or used id, so a
persistence failure is not distinguishable from not-found by the caller. -/
theorem persistence_error_behavior (store : List Link) (now expiry_days : Nat)
    (freshId doctor lid : String) (pe pn : Option String) :
    create_link true store freshId now doctor expiry_days pe pn = (store, none) ∧
    validate_link true store now lid = none ∧
    mark_link_used true store lid = (store, false) := by
  exact ⟨rfl, rfl, rfl⟩

/-- C10: `mark_link_used` (with the store reachable) returns `True` even
when no link with the given id exists — the unconditional update matched
zero documents — and in that case the store is unchanged: no link
transitioned from unused to used. -/
theorem mark_link_used_missing (store : List Link) (lid : String)
    (habsent : ∀ l ∈ store, l.link_id ≠ lid) :
    (mark_link_used false store lid).2 = true ∧
    (mark_link_used false store lid).1 = store := by
  refine ⟨rfl, ?_⟩
  simp only [mark_link_used, if_neg Bool.false_ne_true]
  induction store with
  | nil => rfl
  | cons a t ih =>
    have ha : (a.link_id == lid) = false :=
      Bool.eq_false_iff.mpr (by
        intro hcontra
        exact habsent a (List.mem_cons_self a t) (by simpa using hcontra))
    simp [set_used_first, ha, ih (fun l hl => habsent l (List.mem_cons_of_mem a hl))]

/-- C10 witness: marking a link id in a store that does not contain it
still reports success. -/
theorem mark_link_used_missing_witness :
    (mark_link_used false
      [{ link_id := "L1", doctor_id := "D1", created_at := 0,
         expires_at := 604800, used := false,
         patient_email := none, patient_name := none }] "absent-id").2 = true ∧
    (mark_link_used false
      [{ link_id := "L1", doctor_id := "D1", created_at := 0,
         expires_at := 604800, used := false,
         patient_email := none, patient_name := none }] "absent-id").1 =
      [{ link_id := "L1", doctor_id := "D1", created_at := 0,
         expires_at := 604800, used := false,
         patient_email := none, patient_name := none }] :=
  mark_link_used_missing
    [{ link_id := "L1", doctor_id := "D1", created_at := 0,
       expires_at := 604800, used := false,
       patient_email := none, patient_name := none }] "absent-id"
    (by decide)

/-! ## Assessment record store (src/main2.py, class Assessment) -/

/-- Numeric value of a list of decimal digit characters, as Python's
`int()` computes it. -/
def digitsVal (l : List Char) : Nat :=
  l.foldl (fun n c => n * 10 + (c.toNat - 48)) 0

/-- Model of Python `int(...)` on a nonnegative decimal string given as
characters: defined exactly on nonempty all-digit strings, `none` where
`int()` raises `ValueError`. (Python additionally strips whitespace and
accepts `+`/underscores; such strings never occur in the ids and ages this
system produces, so the model covers the reachable inputs.) -/
def pyNatParse (l : List Char) : Option Nat :=
  if !l.isEmpty && l.all Char.isDigit then some (digitsVal l) else none

/-- Model of Python `int(...)` on a decimal string with an optional
leading minus sign. -/
def pyIntParse (s : String) : Option Int :=
  match s.data with
  | '-' :: rest => (pyNatParse rest).map (fun n => -(n : Int))
  | l => (pyNatParse l).map (fun n => (n : Int))

/-- A Python value sitting in the `age` field before coercion: the form
passes an `int`, but `save_assessment` applies `int(...)`, which also
accepts numeric strings. -/
inductive PyVal where
  | int (n : Int)
  | str (s : String)
deriving Repr, DecidableEq

/-- Model of Python `int(...)` on an age value: identity on integers,
parse on strings, `none` when `int()` would raise `ValueError`. -/
def pyIntCoerce : PyVal → Option Int
  | .int n => some n
  | .str s => pyIntParse s

/-- The parts of the incoming `assessment_data` dict that the claims
depend on; the remaining fields (name, gender, scores, audio references,
…) are carried through `save_assessment` unchanged and are omitted. -/
structure PatientInfoIn where
  patient_id : String
  age : PyVal
deriving Repr, DecidableEq

structure AssessmentIn where
  doctor_id : String
  patient_info : PatientInfoIn
deriving Repr, DecidableEq

/-- An assessment document as stored in the `assessments` collection.
`mongo_id` is the `_id` the store generates at `insert_one` (a BSON
ObjectId in the source, a 24-hex-character string, never equal to the
36-character UUID in `assessment_id`). -/
structure AssessmentDoc where
  mongo_id : String
  assessment_id : String
  doctor_id : String
  patient_id : String
  age : Int
  created_at : Nat
deriving Repr, DecidableEq

/-- Embedding of `Assessment.save_assessment` (src/main2.py lines
459-471): sets `created_at = datetime.now(timezone.utc)` (the parameter
`now`) and `assessment_id = str(uuid.uuid4())` (the fresh value `uuid`),
coerces `patient_info.age` with `int(...)`, inserts the document, and
returns `str(result.inserted_id)` — the string form of the store-generated
`_id` (`mongoId`), NOT the `assessment_id`. If `int(...)` or `insert_one`
raises, the exception is caught and `None` is returned with no insert. -/
def save_assessment (exc : Bool) (store : List AssessmentDoc) (now : Nat)
    (uuid mongoId : String) (data : AssessmentIn) :
    List AssessmentDoc × Option String :=
  if exc then (store, none)
  else
    match pyIntCoerce data.patient_info.age with
    | none => (store, none)
    | some a =>
      (store ++ [{ mongo_id := mongoId, assessment_id := uuid,
                   doctor_id := data.doctor_id,
                   patient_id := data.patient_info.patient_id,
                   age := a, created_at := now }], some mongoId)

/-- Embedding of `Assessment.get_assessment_by_id` (src/main2.py lines
487-488): `find_one({"assessment_id": assessment_id})`. -/
def get_assessment_by_id (store : List AssessmentDoc) (aid : String) :
    Option AssessmentDoc :=
  store.find? (fun d => d.assessment_id == aid)

/-- C8 counterexample: a concrete well-formed record is saved into an
empty store; `save_assessment` returns the store's document id, and
`get_assessment_by_id` on that returned value yields not-found, because
the lookup filters on the `assessment_id` field while the returned value
is the `_id` — so findById(save(record)) is NotFound, contradicting the
claim. -/
theorem save_then_find_counterexample :
    (save_assessment false [] 1000 "3f2b8a10-5c44-4e3b-9d21-8e5a77c01b42"
        "662a1f0c9d3e4b5a6c7d8e9f"
        { doctor_id := "doc-9",
          patient_info := { patient_id := "Pdoc-0001", age := PyVal.int 30 } }).2 =
      some "662a1f0c9d3e4b5a6c7d8e9f" ∧
    get_assessment_by_id
      (save_assessment false [] 1000 "3f2b8a10-5c44-4e3b-9d21-8e5a77c01b42"
          "662a1f0c9d3e4b5a6c7d8e9f"
          { doctor_id := "doc-9",
            patient_info := { patient_id := "Pdoc-0001", age := PyVal.int 30 } }).1
      "662a1f0c9d3e4b5a6c7d8e9f" = none := by
  constructor <;> decide

/-- C8 amended: for every well-formed record (age coercible to an
integer), `save_assessment` assigns `assessment_id` and `created_at`
server-side, coerces the age, appends exactly that document, and returns
the store-generated document id — not the `assessment_id`; consequently
`get_assessment_by_id` succeeds on the record's `assessment_id` but
returns not-found on the value `save_assessment` returned (the two ids
never coincide: a 24-hex-char ObjectId string versus a 36-char UUID
string). -/
theorem save_assessment_spec (store : List AssessmentDoc) (now : Nat)
    (uuid mongoId : String) (data : AssessmentIn) (a : Int)
    (hage : pyIntCoerce data.patient_info.age = some a)
    (hne : mongoId ≠ uuid)
    (hmongo : ∀ d ∈ store, d.assessment_id ≠ mongoId)
    (huuid : ∀ d ∈ store, d.assessment_id ≠ uuid) :
    (save_assessment false store now uuid mongoId data).2 = some mongoId ∧
    (save_assessment false store now uuid mongoId data).1 =
      store ++ [{ mongo_id := mongoId, assessment_id := uuid,
                  doctor_id := data.doctor_id,
                  patient_id := data.patient_info.patient_id,
                  age := a, created_at := now }] ∧
    get_assessment_by_id (save_assessment false store now uuid mongoId data).1 uuid =
      some { mongo_id := mongoId, assessment_id := uuid,
             doctor_id := data.doctor_id,
             patient_id := data.patient_info.patient_id,
             age := a, created_at := now } ∧
    get_assessment_by_id (save_assessment false store now uuid mongoId data).1 mongoId =
      none := by
  have hsave : save_assessment false store now uuid mongoId data =
      (store ++ [{ mongo_id := mongoId, assessment_id := uuid,
                   doctor_id := data.doctor_id,
                   patient_id := data.patient_info.patient_id,
                   age := a, created_at := now }], some mongoId) := by
    simp only [save_assessment, if_neg Bool.false_ne_true, hage]
  rw [hsave]
  refine ⟨rfl, rfl, ?_, ?_⟩
  · have hnone : store.find? (fun d => d.assessment_id == uuid) = none :=
      List.find?_eq_none.mpr (fun d hd => by
        simpa using huuid d hd)
    simp only [get_assessment_by_id]
    rw [find?_append_of_none _ _ _ hnone]
    simp
  · have hnone : store.find? (fun d => d.assessment_id == mongoId) = none :=
      List.find?_eq_none.mpr (fun d hd => by
        simpa using hmongo d hd)
    simp only [get_assessment_by_id]
    rw [find?_append_of_none _ _ _ hnone]
    simp [Ne.symm hne]

/-- C8 witness: concrete instance of the amended save/find round trip,
with a string age coerced to the integer 30. -/
theorem save_assessment_spec_witness :
    (save_assessment false [] 1000 "u-1" "m-1"
        { doctor_id := "doc-9",
          patient_info := { patient_id := "Pdoc-0001", age := PyVal.str "30" } }).2 =
      some "m-1" ∧
    (save_assessment false [] 1000 "u-1" "m-1"
        { doctor_id := "doc-9",
          patient_info := { patient_id := "Pdoc-0001", age := PyVal.str "30" } }).1 =
      [] ++ [{ mongo_id := "m-1", assessment_id := "u-1", doctor_id := "doc-9",
               patient_id := "Pdoc-0001", age := 30, created_at := 1000 }] ∧
    get_assessment_by_id
        (save_assessment false [] 1000 "u-1" "m-1"
          { doctor_id := "doc-9",
            patient_info := { patient_id := "Pdoc-0001", age := PyVal.str "30" } }).1
        "u-1" =
      some { mongo_id := "m-1", assessment_id := "u-1", doctor_id := "doc-9",
             patient_id := "Pdoc-0001", age := 30, created_at := 1000 } ∧
    get_assessment_by_id
        (save_assessment false [] 1000 "u-1" "m-1"
          { doctor_id := "doc-9",
            patient_info := { patient_id := "Pdoc-0001", age := PyVal.str "30" } }).1
        "m-1" = none :=
  save_assessment_spec [] 1000 "u-1" "m-1"
    { doctor_id := "doc-9",
      patient_info := { patient_id := "Pdoc-0001", age := PyVal.str "30" } }
    30 (by decide) (by decide)
    (fun d hd => absurd hd (List.not_mem_nil d))
    (fun d hd => absurd hd (List.not_mem_nil d))

/-! ## Patient identifier generator (src/main2.py, generate_unique_patient_id) -/

/-- Model of Python `s.split('-')` on the character list of a string:
always nonempty, empty segments preserved (`"".split('-') == ['']`,
`"a-".split('-') == ['a','']`). -/
def splitOnDash : List Char → List (List Char)
  | [] => [[]]
  | c :: rest =>
    let r := splitOnDash rest
    if c = '-' then [] :: r
    else
      match r with
      | [] => [[c]]
      | h :: t => (c :: h) :: t

/-- Model of the Python format `f"{n:04d}"`: the decimal rendering of `n`
left-padded with zeros to at least four characters (more digits are kept
unpadded, exactly as `format` behaves). -/
def pad4 (n : Nat) : String :=
  let s := toString n
  String.mk (List.replicate (4 - s.length) '0') ++ s

/-- Model of the Python slice `s[:n]`. -/
def strTake (s : String) (n : Nat) : String :=
  String.mk (s.data.take n)

/-- Embedding of
`find_one({"doctor_id": d}, sort=[("patient_info.patient_id", DESCENDING)])`
(src/main2.py lines 93-96): the stored assessment of this doctor whose
`patient_id` is maximal in the store's string order (Lean's lexicographic
`<` on `String`, which agrees with MongoDB's bytewise comparison on the
ASCII ids this system stores). -/
def latest_by_patient_id (db : List AssessmentDoc) (doctor_id : String) :
    Option AssessmentDoc :=
  (db.filter (fun d => d.doctor_id == doctor_id)).foldl
    (fun acc d =>
      match acc with
      | none => some d
      | some m => if m.patient_id < d.patient_id then some d else some m)
    none

/-- Embedding of `int(latest_id.split('-')[1])` under the
`try/except (IndexError, ValueError)` of src/main2.py lines 101-104:
the trailing number of the latest patient id, or 0 when the id has no
second `-`-separated segment or that segment is not numeric. -/
def parse_trailing_number (patient_id : String) : Nat :=
  match (splitOnDash patient_id.data).get? 1 with
  | some seg => (pyNatParse seg).getD 0
  | none => 0

/-- Embedding of `generate_unique_patient_id` (src/main2.py lines 90-110):
the latest record's trailing number (0 when absent or unparseable) plus
one, rendered as `f"P{doctor_id[:4]}-{new_number:04d}"`. -/
def generate_unique_patient_id (doctor_id : String) (db : List AssessmentDoc) :
    String :=
  let number :=
    match latest_by_patient_id db doctor_id with
    | some a => parse_trailing_number a.patient_id
    | none => 0
  "P" ++ strTake doctor_id 4 ++ "-" ++ pad4 (number + 1)

/-- `parse_trailing_number` written with `Option.bind`. -/
theorem parse_trailing_number_eq (pid : String) :
    parse_trailing_number pid =
      (((splitOnDash pid.data).get? 1).bind pyNatParse).getD 0 := by
  unfold parse_trailing_number
  cases (splitOnDash pid.data).get? 1 <;> rfl

/-- C6: `generate_unique_patient_id` returns
`P` + the first four characters of the doctor id + `-` + the zero-padded
number: suffix `0001` when the clinician has no prior assessment record or
the latest record's patient id fails to parse, and the latest record's
trailing number plus one otherwise, where "latest" is by descending
`patient_info.patient_id` order; concretely, no prior record gives
`P1234-0001` and a prior `P1234-0001` gives `P1234-0002`. -/
theorem generate_patient_id_spec (db : List AssessmentDoc) (doctor_id : String) :
    ((∀ d ∈ db, d.doctor_id ≠ doctor_id) →
      generate_unique_patient_id doctor_id db =
        "P" ++ strTake doctor_id 4 ++ "-" ++ "0001") ∧
    (∀ a, latest_by_patient_id db doctor_id = some a →
      (∀ n, ((splitOnDash a.patient_id.data).get? 1).bind pyNatParse = some n →
        generate_unique_patient_id doctor_id db =
          "P" ++ strTake doctor_id 4 ++ "-" ++ pad4 (n + 1)) ∧
      (((splitOnDash a.patient_id.data).get? 1).bind pyNatParse = none →
        generate_unique_patient_id doctor_id db =
          "P" ++ strTake doctor_id 4 ++ "-" ++ "0001")) ∧
    generate_unique_patient_id "1234567" [] = "P1234-0001" ∧
    generate_unique_patient_id "1234567"
      [{ mongo_id := "m1", assessment_id := "a1", doctor_id := "1234567",
         patient_id := "P1234-0001", age := 30, created_at := 0 }] = "P1234-0002" := by
  refine ⟨?_, ?_, by decide, by decide⟩
  · intro hempty
    have hfilter : db.filter (fun d => d.doctor_id == doctor_id) = [] :=
      List.filter_eq_nil_iff.mpr (fun d hd => by simpa using hempty d hd)
    have hlatest : latest_by_patient_id db doctor_id = none := by
      simp [latest_by_patient_id, hfilter]
    rw [show ("0001" : String) = pad4 (0 + 1) by decide]
    simp [generate_unique_patient_id, hlatest]
  · intro a ha
    constructor
    · intro n hn
      simp only [generate_unique_patient_id, ha]
      rw [parse_trailing_number_eq, hn]
      rfl
    · intro hn
      simp only [generate_unique_patient_id, ha]
      rw [parse_trailing_number_eq, hn]
      rw [show ("0001" : String) = pad4 (0 + 1) by decide]
      rfl

/-- C6 witness: a clinician with no prior records gets the suffix 0001. -/
theorem generate_patient_id_spec_witness :
    generate_unique_patient_id "1234567" [] =
      "P" ++ strTake "1234567" 4 ++ "-" ++ "0001" :=
  (generate_patient_id_spec [] "1234567").1
    (fun d hd => absurd hd (List.not_mem_nil d))

end Roopak
